import Mathlib

/-!
Verification of the bond-yield calculator in
`src/components/BondCalculator.tsx`.

The component's numbers are JavaScript numbers.  We idealize them as
`JSNum`: NaN, a signed infinity, or an exact rational (no rounding,
no overflow, no negative zero).  `Math.pow` can produce irrational
values, so its result lives in `RNum`, whose finite values are reals.
`parseFloat` and `parseInt` follow the ECMAScript string-to-number
grammars (whitespace skipping, optional sign, the `Infinity` literal,
decimal/fraction/exponent parts for `parseFloat`; the `0x` hex form
and longest-digit-run truncation for `parseInt`).
-/

namespace BondYield

/-- An idealized JavaScript number: NaN, ±Infinity, or an exact finite
rational.  `inf true` is `+Infinity`, `inf false` is `-Infinity`. -/
inductive JSNum where
  | nan : JSNum
  | inf : Bool → JSNum
  | fin : ℚ → JSNum
  deriving DecidableEq

namespace JSNum

/-- JavaScript `isNaN` on an idealized number. -/
def isNaN : JSNum → Bool
  | nan => true
  | _ => false

/-- JavaScript unary minus. -/
def neg : JSNum → JSNum
  | nan => nan
  | inf s => inf (!s)
  | fin q => fin (-q)

/-- JavaScript addition. -/
def add : JSNum → JSNum → JSNum
  | nan, _ => nan
  | _, nan => nan
  | inf s, inf t => if s = t then inf s else nan
  | inf s, fin _ => inf s
  | fin _, inf t => inf t
  | fin a, fin b => fin (a + b)

/-- JavaScript subtraction. -/
def sub (x y : JSNum) : JSNum := add x (neg y)

/-- JavaScript multiplication. -/
def mul : JSNum → JSNum → JSNum
  | nan, _ => nan
  | _, nan => nan
  | inf s, inf t => inf (s == t)
  | inf s, fin q => if q = 0 then nan else inf (s == decide (0 < q))
  | fin q, inf t => if q = 0 then nan else inf (t == decide (0 < q))
  | fin a, fin b => fin (a * b)

/-- JavaScript division (division by zero gives a signed infinity,
`0/0` gives NaN). -/
def div : JSNum → JSNum → JSNum
  | nan, _ => nan
  | _, nan => nan
  | inf _, inf _ => nan
  | inf s, fin q => inf (s == decide (0 ≤ q))
  | fin _, inf _ => fin 0
  | fin a, fin b =>
      if b = 0 then (if a = 0 then nan else inf (decide (0 < a)))
      else fin (a / b)

/-- JavaScript `<=` comparison (false whenever either side is NaN). -/
def jsLe : JSNum → JSNum → Bool
  | nan, _ => false
  | _, nan => false
  | inf s, inf t => !s || t
  | inf s, fin _ => !s
  | fin _, inf t => t
  | fin a, fin b => decide (a ≤ b)

end JSNum

/-- Result type of `Math.pow`: NaN, ±Infinity, or a finite real. -/
inductive RNum where
  | nan : RNum
  | inf : Bool → RNum
  | fin : ℝ → RNum

/-- Whether a rational is an integer. -/
def ratIsInt (q : ℚ) : Bool := q.den == 1

/-- Whether a rational is an odd integer (used by `Math.pow` sign rules). -/
def ratIsOddInt (q : ℚ) : Bool := q.den == 1 && q.num % 2 != 0

/-- JavaScript `Math.pow` on idealized numbers, following the ECMAScript
case analysis.  A positive finite base with a finite exponent uses the
real power function; a negative finite base with a non-integer exponent
is NaN.  Negative zero is not modelled, so `-0` results collapse to `0`. -/
noncomputable def jsPow : JSNum → JSNum → RNum
  | _, JSNum.nan => RNum.nan
  | x, JSNum.inf t =>
      match x with
      | JSNum.nan => RNum.nan
      | JSNum.inf _ => if t then RNum.inf true else RNum.fin 0
      | JSNum.fin q =>
          if q = 1 ∨ q = -1 then RNum.nan
          else if 1 < |q| then (if t then RNum.inf true else RNum.fin 0)
          else (if t then RNum.fin 0 else RNum.inf true)
  | x, JSNum.fin e =>
      if e = 0 then RNum.fin 1
      else
        match x with
        | JSNum.nan => RNum.nan
        | JSNum.inf true => if 0 < e then RNum.inf true else RNum.fin 0
        | JSNum.inf false =>
            if 0 < e then
              (if ratIsOddInt e then RNum.inf false else RNum.inf true)
            else RNum.fin 0
        | JSNum.fin q =>
            if 0 < q then RNum.fin (Real.rpow (q : ℝ) (e : ℝ))
            else if q = 0 then (if 0 < e then RNum.fin 0 else RNum.inf true)
            else if ratIsInt e then RNum.fin ((q : ℝ) ^ e.num)
            else RNum.nan

/-- The ECMAScript whitespace characters skipped by the parse functions
(restricted to the ASCII ones; the inputs at hand are ASCII). -/
def isJsSpace (c : Char) : Bool :=
  c = ' ' || c = '\t' || c = '\n' || c = '\r' || c = '\x0b' || c = '\x0c'

/-- Numeric value of a decimal digit character. -/
def digitVal (c : Char) : ℚ := ((c.toNat - 48 : ℕ) : ℚ)

/-- Value of a run of decimal digit characters, most significant first. -/
def digitsVal (l : List Char) : ℚ := l.foldl (fun a c => 10 * a + digitVal c) 0

/-- Value of a run of decimal digit characters as a natural number. -/
def digitsNat (l : List Char) : ℕ := l.foldl (fun a c => 10 * a + (c.toNat - 48)) 0

/-- Whether a character is a hexadecimal digit. -/
def isHexDigit (c : Char) : Bool :=
  c.isDigit || ('a' ≤ c && c ≤ 'f') || ('A' ≤ c && c ≤ 'F')

/-- Numeric value of a hexadecimal digit character. -/
def hexVal (c : Char) : ℚ :=
  if c.isDigit then ((c.toNat - 48 : ℕ) : ℚ)
  else if 'a' ≤ c then ((c.toNat - 87 : ℕ) : ℚ)
  else ((c.toNat - 55 : ℕ) : ℚ)

/-- Value of a run of hexadecimal digit characters. -/
def hexDigitsVal (l : List Char) : ℚ := l.foldl (fun a c => 16 * a + hexVal c) 0

/-- `parseInt` after sign handling, decimal form: the longest run of
leading decimal digits, NaN when there is none. -/
def parseIntDigits (l : List Char) (sgn : ℚ) : JSNum :=
  let ds := l.takeWhile Char.isDigit
  if ds.isEmpty then JSNum.nan else JSNum.fin (sgn * digitsVal ds)

/-- `parseInt` after a `0x`/`0X` marker: the longest run of hex digits,
NaN when there is none. -/
def parseIntHex (l : List Char) (sgn : ℚ) : JSNum :=
  let ds := l.takeWhile isHexDigit
  if ds.isEmpty then JSNum.nan else JSNum.fin (sgn * hexDigitsVal ds)

/-- `parseInt` after the optional sign: a `0x`/`0X` marker selects the
hexadecimal form, otherwise the decimal form applies. -/
def parseIntAfterSign (l : List Char) (sgn : ℚ) : JSNum :=
  match l with
  | '0' :: 'x' :: rest => parseIntHex rest sgn
  | '0' :: 'X' :: rest => parseIntHex rest sgn
  | _ => parseIntDigits l sgn

/-- JavaScript `parseInt(s)` (no radix argument): skip whitespace, read an
optional sign, then the longest valid digit run; NaN when no digit follows. -/
def parseInt (s : String) : JSNum :=
  match s.data.dropWhile isJsSpace with
  | '-' :: rest => parseIntAfterSign rest (-1)
  | '+' :: rest => parseIntAfterSign rest 1
  | rest => parseIntAfterSign rest 1

/-- Exponent part of a decimal literal after the `e`/`E`: optional sign and
digits.  An incomplete exponent contributes nothing (the literal parse
backtracks to before the `e`). -/
def parseExpSigned (l : List Char) : ℤ :=
  match l with
  | '-' :: t =>
      let ds := t.takeWhile Char.isDigit
      if ds.isEmpty then 0 else -(digitsNat ds : ℤ)
  | '+' :: t =>
      let ds := t.takeWhile Char.isDigit
      if ds.isEmpty then 0 else (digitsNat ds : ℤ)
  | t =>
      let ds := t.takeWhile Char.isDigit
      if ds.isEmpty then 0 else (digitsNat ds : ℤ)

/-- Optional exponent part of a decimal literal. -/
def parseExp (l : List Char) : ℤ :=
  match l with
  | 'e' :: rest => parseExpSigned rest
  | 'E' :: rest => parseExpSigned rest
  | _ => 0

/-- `parseFloat` after the optional sign: the `Infinity` literal, or
integer digits, an optional fraction, and an optional exponent.  NaN when
neither integer nor fraction digits are present. -/
def parseFloatAfterSign (l : List Char) (sgn : ℚ) : JSNum :=
  match l with
  | 'I' :: 'n' :: 'f' :: 'i' :: 'n' :: 'i' :: 't' :: 'y' :: _ =>
      JSNum.inf (decide (0 < sgn))
  | _ =>
      let ip := l.takeWhile Char.isDigit
      let r1 := l.dropWhile Char.isDigit
      let fp := match r1 with
        | '.' :: t => t.takeWhile Char.isDigit
        | _ => []
      let r2 := match r1 with
        | '.' :: t => t.dropWhile Char.isDigit
        | _ => r1
      if ip.isEmpty && fp.isEmpty then JSNum.nan
      else
        JSNum.fin
          (sgn * (digitsVal ip + digitsVal fp / 10 ^ fp.length)
             * (10 : ℚ) ^ parseExp r2)

/-- JavaScript `parseFloat(s)`: skip whitespace, read an optional sign,
then the longest valid decimal (or `Infinity`) literal; NaN when there is
none. -/
def parseFloat (s : String) : JSNum :=
  match s.data.dropWhile isJsSpace with
  | '-' :: rest => parseFloatAfterSign rest (-1)
  | '+' :: rest => parseFloatAfterSign rest 1
  | rest => parseFloatAfterSign rest 1

/-- The form state: the four bond input fields, each held as raw text
(`BondData` in the source). -/
structure BondData where
  nominalValue : String
  currentValue : String
  expirationYear : String
  yearlyInterestRate : String
  deriving DecidableEq

/-- The derived result (`CalculationResult` in the source).  All four
fields are JavaScript numbers; `compoundRate` comes from `Math.pow` and
so lives in `RNum`. -/
structure CalculationResult where
  compoundRate : RNum
  totalInterestPayments : JSNum
  totalReturn : JSNum
  yearsRemaining : JSNum

/-- The `calculateCompoundRate` function of the component, with the
ambient `new Date().getFullYear()` made an explicit `currentYear`
argument.  `setResult(null)` is modelled as `none` and `setResult {...}`
as `some {...}`. -/
noncomputable def calculateCompoundRate (bondData : BondData)
    (currentYear : ℤ) : Option CalculationResult :=
  let nominal := parseFloat bondData.nominalValue
  let current := parseFloat bondData.currentValue
  let expYear := parseInt bondData.expirationYear
  let interestRate := JSNum.div (parseFloat bondData.yearlyInterestRate) (JSNum.fin 100)
  if nominal.isNaN || current.isNaN || expYear.isNaN || interestRate.isNaN then
    none
  else
    let yearsRemaining := JSNum.sub expYear (JSNum.fin (currentYear : ℚ))
    if JSNum.jsLe yearsRemaining (JSNum.fin 0) then
      none
    else
      let annualInterest := JSNum.mul nominal interestRate
      let totalInterestPayments := JSNum.mul annualInterest yearsRemaining
      let totalReturn := JSNum.add totalInterestPayments nominal
      let compoundRate :=
        jsPow (JSNum.div totalReturn current)
          (JSNum.div (JSNum.fin 1) yearsRemaining)
      some
        { compoundRate := compoundRate
          totalInterestPayments := totalInterestPayments
          totalReturn := totalReturn
          yearsRemaining := yearsRemaining }

/-- The four field names of `BondData` (the `keyof BondData` type used by
`handleInputChange`). -/
inductive BondField where
  | nominalValue : BondField
  | currentValue : BondField
  | expirationYear : BondField
  | yearlyInterestRate : BondField
  deriving DecidableEq

/-- Projection of a `BondData` at a field name. -/
def BondData.get (b : BondData) : BondField → String
  | BondField.nominalValue => b.nominalValue
  | BondField.currentValue => b.currentValue
  | BondField.expirationYear => b.expirationYear
  | BondField.yearlyInterestRate => b.yearlyInterestRate

/-- The `handleInputChange` handler:
`setBondData(prev => ({ ...prev, [field]: value }))`, modelled as the
state transformer it applies to the previous state. -/
def handleInputChange (field : BondField) (value : String)
    (prev : BondData) : BondData :=
  match field with
  | BondField.nominalValue => { prev with nominalValue := value }
  | BondField.currentValue => { prev with currentValue := value }
  | BondField.expirationYear => { prev with expirationYear := value }
  | BondField.yearlyInterestRate => { prev with yearlyInterestRate := value }

/-- The per-year interest displayed in the formula breakdown:
`result.totalInterestPayments / result.yearsRemaining` (a fresh division
performed at render time). -/
def displayedPerYearInterest (r : CalculationResult) : JSNum :=
  JSNum.div r.totalInterestPayments r.yearsRemaining

/-! ### Basic facts about the idealized JavaScript operations -/

lemma JSNum.sub_fin_fin (a b : ℚ) :
    JSNum.sub (JSNum.fin a) (JSNum.fin b) = JSNum.fin (a - b) := by
  simp [JSNum.sub, JSNum.add, JSNum.neg, sub_eq_add_neg]

lemma JSNum.isNaN_fin (q : ℚ) : (JSNum.fin q).isNaN = false := rfl

lemma JSNum.isNaN_inf (s : Bool) : (JSNum.inf s).isNaN = false := rfl

lemma JSNum.jsLe_fin_fin (a b : ℚ) :
    JSNum.jsLe (JSNum.fin a) (JSNum.fin b) = decide (a ≤ b) := rfl

/-- Dividing by a nonzero finite number preserves NaN-ness. -/
lemma JSNum.isNaN_div_fin (x : JSNum) (c : ℚ) (hc : c ≠ 0) :
    (JSNum.div x (JSNum.fin c)).isNaN = x.isNaN := by
  cases x with
  | nan => rfl
  | inf s => rfl
  | fin a => simp [JSNum.div, hc, JSNum.isNaN]

/-- Multiplying by a positive finite number and dividing it out again is
the identity on idealized JavaScript numbers. -/
lemma JSNum.div_mul_fin_cancel (A : JSNum) (k : ℚ) (hk : 0 < k) :
    JSNum.div (JSNum.mul A (JSNum.fin k)) (JSNum.fin k) = A := by
  cases A with
  | nan => rfl
  | inf s =>
      simp only [JSNum.mul, JSNum.div, if_neg hk.ne', decide_eq_true hk,
        decide_eq_true hk.le]
      cases s <;> rfl
  | fin a =>
      simp only [JSNum.mul, JSNum.div, if_neg hk.ne']
      rw [mul_div_assoc, div_self hk.ne', mul_one]

/-! ### Shape of the parse results -/

lemma parseIntDigits_shape (l : List Char) (s : ℚ) :
    parseIntDigits l s = JSNum.nan ∨ ∃ q, parseIntDigits l s = JSNum.fin q := by
  by_cases h : (List.takeWhile Char.isDigit l).isEmpty = true
  · exact Or.inl (by simp [parseIntDigits, h])
  · exact Or.inr ⟨s * digitsVal (List.takeWhile Char.isDigit l),
      by simp [parseIntDigits, h]⟩

lemma parseIntHex_shape (l : List Char) (s : ℚ) :
    parseIntHex l s = JSNum.nan ∨ ∃ q, parseIntHex l s = JSNum.fin q := by
  by_cases h : (List.takeWhile isHexDigit l).isEmpty = true
  · exact Or.inl (by simp [parseIntHex, h])
  · exact Or.inr ⟨s * hexDigitsVal (List.takeWhile isHexDigit l),
      by simp [parseIntHex, h]⟩

/-- `parseInt` returns NaN or a finite value, never an infinity. -/
lemma parseInt_shape (s : String) :
    parseInt s = JSNum.nan ∨ ∃ q, parseInt s = JSNum.fin q := by
  unfold parseInt
  split <;>
    · unfold parseIntAfterSign
      split
      · exact parseIntHex_shape _ _
      · exact parseIntHex_shape _ _
      · exact parseIntDigits_shape _ _

/-! ### Digit-run lemmas for `parseInt` truncation -/

lemma isDigit_not_space (c : Char) (h : c.isDigit = true) : isJsSpace c = false := by
  cases hs : isJsSpace c
  · rfl
  · exfalso
    simp only [isJsSpace, Bool.or_eq_true, decide_eq_true_eq] at hs
    rcases hs with ((((h1 | h1) | h1) | h1) | h1) | h1 <;> subst h1 <;>
      exact absurd h (by decide)

lemma takeWhile_append_of_all {p : Char → Bool} (ds t : List Char)
    (h : ∀ c ∈ ds, p c = true) :
    List.takeWhile p (ds ++ t) = ds ++ List.takeWhile p t := by
  induction ds with
  | nil => simp
  | cons d ds ih =>
      have hd := h d (by simp)
      simp [List.takeWhile_cons, hd, ih (fun c hc => h c (by simp [hc]))]

lemma takeWhile_eq_nil_of_head {p : Char → Bool} (t : List Char)
    (h : ∀ c, t.head? = some c → p c = false) : List.takeWhile p t = [] := by
  cases t with
  | nil => rfl
  | cons c t => simp [List.takeWhile_cons, h c rfl]

/-- `parseInt` on a nonempty run of decimal digits followed by anything
that neither extends the run nor turns it into a hex marker: the digit
run is parsed and the tail is ignored. -/
lemma parseInt_digits_append (ds t : List Char) (hne : ds ≠ [])
    (hdig : ∀ c ∈ ds, c.isDigit = true)
    (ht : ∀ c, t.head? = some c → (c.isDigit = false ∧ c ≠ 'x' ∧ c ≠ 'X')) :
    parseInt (String.mk (ds ++ t)) = JSNum.fin (digitsVal ds) := by
  obtain ⟨d, ds', rfl⟩ : ∃ d ds', ds = d :: ds' := by
    cases ds with
    | nil => exact absurd rfl hne
    | cons d ds' => exact ⟨d, ds', rfl⟩
  have hd : d.isDigit = true := hdig d (by simp)
  have h1 : List.dropWhile isJsSpace (String.mk ((d :: ds') ++ t)).data =
      (d :: ds') ++ t := by
    simp [List.dropWhile_cons, isDigit_not_space d hd]
  have htake : List.takeWhile Char.isDigit (d :: (ds' ++ t)) = d :: ds' := by
    rw [← List.cons_append, takeWhile_append_of_all _ _ hdig,
      takeWhile_eq_nil_of_head t (fun c hc => (ht c hc).1), List.append_nil]
  unfold parseInt
  rw [h1]
  split
  · next rest heq =>
      exfalso
      rw [List.cons_append] at heq
      injection heq with heq1 _
      rw [heq1] at hd
      exact absurd hd (by decide)
  · next rest heq =>
      exfalso
      rw [List.cons_append] at heq
      injection heq with heq1 _
      rw [heq1] at hd
      exact absurd hd (by decide)
  · unfold parseIntAfterSign
    split
    · next rest heq =>
        exfalso
        rw [List.cons_append] at heq
        injection heq with heq1 heq2
        cases ds' with
        | nil =>
            simp only [List.nil_append] at heq2
            have := ht 'x' (by rw [heq2]; rfl)
            exact this.2.1 rfl
        | cons c2 tl =>
            rw [List.cons_append] at heq2
            injection heq2 with heq3 _
            have := hdig c2 (by simp)
            rw [heq3] at this
            exact absurd this (by decide)
    · next rest heq =>
        exfalso
        rw [List.cons_append] at heq
        injection heq with heq1 heq2
        cases ds' with
        | nil =>
            simp only [List.nil_append] at heq2
            have := ht 'X' (by rw [heq2]; rfl)
            exact this.2.2 rfl
        | cons c2 tl =>
            rw [List.cons_append] at heq2
            injection heq2 with heq3 _
            have := hdig c2 (by simp)
            rw [heq3] at this
            exact absurd this (by decide)
    · simp [parseIntDigits, htake, hd]

/-! ### Characterization of `calculateCompoundRate` -/

/-- When all four parses are non-NaN and the parsed year is strictly in
the future, the calculation produces exactly the record built by the
source arithmetic. -/
lemma calculate_eq_some (b : BondData) (y : ℤ) (e : ℚ)
    (hn : (parseFloat b.nominalValue).isNaN = false)
    (hc : (parseFloat b.currentValue).isNaN = false)
    (hr : (parseFloat b.yearlyInterestRate).isNaN = false)
    (he : parseInt b.expirationYear = JSNum.fin e)
    (hy : (y : ℚ) < e) :
    calculateCompoundRate b y =
      some
        { compoundRate :=
            jsPow
              (JSNum.div
                (JSNum.add
                  (JSNum.mul
                    (JSNum.mul (parseFloat b.nominalValue)
                      (JSNum.div (parseFloat b.yearlyInterestRate) (JSNum.fin 100)))
                    (JSNum.fin (e - y)))
                  (parseFloat b.nominalValue))
                (parseFloat b.currentValue))
              (JSNum.div (JSNum.fin 1) (JSNum.fin (e - y)))
          totalInterestPayments :=
            JSNum.mul
              (JSNum.mul (parseFloat b.nominalValue)
                (JSNum.div (parseFloat b.yearlyInterestRate) (JSNum.fin 100)))
              (JSNum.fin (e - y))
          totalReturn :=
            JSNum.add
              (JSNum.mul
                (JSNum.mul (parseFloat b.nominalValue)
                  (JSNum.div (parseFloat b.yearlyInterestRate) (JSNum.fin 100)))
                (JSNum.fin (e - y)))
              (parseFloat b.nominalValue)
          yearsRemaining := JSNum.fin (e - y) } := by
  have hir : (JSNum.div (parseFloat b.yearlyInterestRate) (JSNum.fin 100)).isNaN = false := by
    rw [JSNum.isNaN_div_fin _ _ (show (100 : ℚ) ≠ 0 by norm_num)]
    exact hr
  have hle : JSNum.jsLe (JSNum.fin (e - y)) (JSNum.fin 0) = false := by
    rw [JSNum.jsLe_fin_fin]
    simp only [decide_eq_false_iff_not, not_le]
    linarith
  simp only [calculateCompoundRate, he, JSNum.sub_fin_fin, hn, hc, hir, JSNum.isNaN_fin,
    Bool.or_self, Bool.or_false, Bool.false_or, hle, Bool.false_eq_true, if_false]

/-- If any of the four parses is NaN, the calculation yields no result. -/
lemma calculate_none_of_nan (b : BondData) (y : ℤ)
    (h : (parseFloat b.nominalValue).isNaN = true ∨ (parseFloat b.currentValue).isNaN = true ∨
      (parseInt b.expirationYear).isNaN = true ∨
      (parseFloat b.yearlyInterestRate).isNaN = true) :
    calculateCompoundRate b y = none := by
  have hguard : ((parseFloat b.nominalValue).isNaN || (parseFloat b.currentValue).isNaN ||
      (parseInt b.expirationYear).isNaN ||
      (JSNum.div (parseFloat b.yearlyInterestRate) (JSNum.fin 100)).isNaN) = true := by
    rcases h with h | h | h | h
    · simp [h]
    · simp [h]
    · simp [h]
    · simp [JSNum.isNaN_div_fin _ _ (show (100 : ℚ) ≠ 0 by norm_num), h]
  simp only [calculateCompoundRate, hguard, if_true]

/-- If the parsed expiration year is at most the current year, the
calculation yields no result. -/
lemma calculate_none_of_expired (b : BondData) (y : ℤ) (e : ℚ)
    (he : parseInt b.expirationYear = JSNum.fin e) (hle : e ≤ (y : ℚ)) :
    calculateCompoundRate b y = none := by
  have hjle : JSNum.jsLe (JSNum.fin (e - y)) (JSNum.fin 0) = true := by
    rw [JSNum.jsLe_fin_fin]
    simp only [decide_eq_true_eq]
    linarith
  simp only [calculateCompoundRate, he, JSNum.sub_fin_fin, JSNum.isNaN_fin, hjle,
    Bool.or_false, if_true]
  split
  · rfl
  · rfl

/-- A result exists exactly when the three float fields parse to
non-NaN values and the integer-parsed expiration year is strictly
greater than the current year. -/
lemma calculate_isSome_iff (b : BondData) (y : ℤ) :
    (calculateCompoundRate b y).isSome = true ↔
      ((parseFloat b.nominalValue).isNaN = false ∧
        (parseFloat b.currentValue).isNaN = false ∧
        (parseFloat b.yearlyInterestRate).isNaN = false ∧
        ∃ e : ℚ, parseInt b.expirationYear = JSNum.fin e ∧ (y : ℚ) < e) := by
  constructor
  · intro h
    cases hn : (parseFloat b.nominalValue).isNaN with
    | true =>
        rw [calculate_none_of_nan b y (Or.inl hn)] at h
        exact absurd h (by simp)
    | false =>
        cases hc : (parseFloat b.currentValue).isNaN with
        | true =>
            rw [calculate_none_of_nan b y (Or.inr (Or.inl hc))] at h
            exact absurd h (by simp)
        | false =>
            cases hr : (parseFloat b.yearlyInterestRate).isNaN with
            | true =>
                rw [calculate_none_of_nan b y (Or.inr (Or.inr (Or.inr hr)))] at h
                exact absurd h (by simp)
            | false =>
                rcases parseInt_shape b.expirationYear with hint | ⟨e, hint⟩
                · rw [calculate_none_of_nan b y
                      (Or.inr (Or.inr (Or.inl (by rw [hint]; rfl))))] at h
                  exact absurd h (by simp)
                · by_cases hy : (y : ℚ) < e
                  · exact ⟨rfl, rfl, rfl, e, hint, hy⟩
                  · rw [calculate_none_of_expired b y e hint (le_of_not_lt hy)] at h
                    exact absurd h (by simp)
  · rintro ⟨hn, hc, hr, e, he, hy⟩
    rw [calculate_eq_some b y e hn hc hr he hy]
    rfl

/-! ### Concrete parse evaluations -/

lemma parseFloat_lit_1000 : parseFloat "1000" = JSNum.fin 1000 := by
  simp +decide [parseFloat, parseFloatAfterSign, parseExp, parseExpSigned, digitsVal,
    digitVal, digitsNat, isJsSpace, List.takeWhile, List.dropWhile]
  norm_num

lemma parseFloat_lit_900 : parseFloat "900" = JSNum.fin 900 := by
  simp +decide [parseFloat, parseFloatAfterSign, parseExp, parseExpSigned, digitsVal,
    digitVal, digitsNat, isJsSpace, List.takeWhile, List.dropWhile]
  norm_num

lemma parseFloat_lit_0 : parseFloat "0" = JSNum.fin 0 := by
  simp +decide [parseFloat, parseFloatAfterSign, parseExp, parseExpSigned, digitsVal,
    digitVal, digitsNat, isJsSpace, List.takeWhile, List.dropWhile]

lemma parseFloat_lit_2_5 : parseFloat "2.5" = JSNum.fin (5 / 2) := by
  simp +decide [parseFloat, parseFloatAfterSign, parseExp, parseExpSigned, digitsVal,
    digitVal, digitsNat, isJsSpace, List.takeWhile, List.dropWhile]
  norm_num

lemma parseFloat_lit_neg2_5 : parseFloat "-2.5" = JSNum.fin (-(5 / 2)) := by
  simp +decide [parseFloat, parseFloatAfterSign, parseExp, parseExpSigned, digitsVal,
    digitVal, digitsNat, isJsSpace, List.takeWhile, List.dropWhile]
  norm_num

lemma parseFloat_lit_1000x : parseFloat "1000x" = JSNum.fin 1000 := by
  simp +decide [parseFloat, parseFloatAfterSign, parseExp, parseExpSigned, digitsVal,
    digitVal, digitsNat, isJsSpace, List.takeWhile, List.dropWhile]
  norm_num

lemma parseFloat_lit_infinity : parseFloat "Infinity" = JSNum.inf true := by
  simp +decide [parseFloat, parseFloatAfterSign, isJsSpace]

lemma parseFloat_lit_empty : parseFloat "" = JSNum.nan := by
  simp +decide [parseFloat, parseFloatAfterSign, isJsSpace, List.takeWhile, List.dropWhile]

lemma parseInt_lit_2030 : parseInt "2030" = JSNum.fin 2030 := by
  simp +decide [parseInt, parseIntAfterSign, parseIntDigits, digitsVal, digitVal,
    isJsSpace, List.takeWhile, List.dropWhile]
  norm_num

lemma parseInt_lit_2020 : parseInt "2020" = JSNum.fin 2020 := by
  simp +decide [parseInt, parseIntAfterSign, parseIntDigits, digitsVal, digitVal,
    isJsSpace, List.takeWhile, List.dropWhile]
  norm_num

/-! ### The claims -/

/-- C1 (amended): a `CalculationResult` exists if and only if all four
input fields parse to non-NaN numbers (the three float fields via
`parseFloat`, the year via `parseInt`) and the parsed expiration year is
strictly greater than the current calendar year; otherwise the result is
absent.  (The original claim said "finite numbers"; the code only checks
`isNaN`, so an input such as `"Infinity"` parses to a non-finite number
and still yields a result — see the counterexample.) -/
theorem c1_result_iff_nonNaN_and_future (b : BondData) (y : ℤ) :
    (calculateCompoundRate b y).isSome = true ↔
      ((parseFloat b.nominalValue).isNaN = false ∧
        (parseFloat b.currentValue).isNaN = false ∧
        (parseFloat b.yearlyInterestRate).isNaN = false ∧
        ∃ e : ℚ, parseInt b.expirationYear = JSNum.fin e ∧ (y : ℚ) < e) :=
  calculate_isSome_iff b y

/-- C1 counterexample: with `nominalValue = "Infinity"` all four fields
parse, but the nominal value is not finite; the claim as stated demands
an absent result, yet the calculation still produces one. -/
theorem c1_counterexample_infinity :
    parseFloat "Infinity" = JSNum.inf true ∧
      (calculateCompoundRate
        { nominalValue := "Infinity", currentValue := "900",
          expirationYear := "2030", yearlyInterestRate := "2.5" }
        2025).isSome = true := by
  constructor
  · exact parseFloat_lit_infinity
  · rw [calculate_isSome_iff]
    refine ⟨?_, ?_, ?_, 2030, ?_, by norm_num⟩
    · rw [parseFloat_lit_infinity]; rfl
    · rw [parseFloat_lit_900]; rfl
    · rw [parseFloat_lit_2_5]; rfl
    · exact parseInt_lit_2030

/-- C2 (confirmed): whenever all four fields parse (non-NaN) and the
parsed expiration year is strictly in the future, the produced result
satisfies exactly `annualInterest = nominalValue * (yearlyInterestRate / 100)`,
`totalInterestPayments = annualInterest * yearsRemaining`,
`totalReturn = totalInterestPayments + nominalValue`, and
`compoundRate = (totalReturn / currentValue) ^ (1 / yearsRemaining)`,
in that order of operations. -/
theorem c2_result_formulas (b : BondData) (y : ℤ) (e : ℚ)
    (hn : (parseFloat b.nominalValue).isNaN = false)
    (hc : (parseFloat b.currentValue).isNaN = false)
    (hr : (parseFloat b.yearlyInterestRate).isNaN = false)
    (he : parseInt b.expirationYear = JSNum.fin e)
    (hy : (y : ℚ) < e) :
    ∃ r, calculateCompoundRate b y = some r ∧
      r.yearsRemaining = JSNum.fin (e - y) ∧
      r.totalInterestPayments =
        JSNum.mul
          (JSNum.mul (parseFloat b.nominalValue)
            (JSNum.div (parseFloat b.yearlyInterestRate) (JSNum.fin 100)))
          r.yearsRemaining ∧
      r.totalReturn = JSNum.add r.totalInterestPayments (parseFloat b.nominalValue) ∧
      r.compoundRate =
        jsPow (JSNum.div r.totalReturn (parseFloat b.currentValue))
          (JSNum.div (JSNum.fin 1) r.yearsRemaining) :=
  ⟨_, calculate_eq_some b y e hn hc hr he hy, rfl, rfl, rfl, rfl⟩

/-- C2 witness: the spec's concrete scenario (nominal 1000, current 900,
expiration 2030 seen from 2025, rate 2.5%). -/
theorem c2_witness :
    ∃ r, calculateCompoundRate
        { nominalValue := "1000", currentValue := "900",
          expirationYear := "2030", yearlyInterestRate := "2.5" } 2025 = some r ∧
      r.yearsRemaining = JSNum.fin (2030 - (2025 : ℤ)) ∧
      r.totalInterestPayments =
        JSNum.mul
          (JSNum.mul (parseFloat "1000")
            (JSNum.div (parseFloat "2.5") (JSNum.fin 100)))
          r.yearsRemaining ∧
      r.totalReturn = JSNum.add r.totalInterestPayments (parseFloat "1000") ∧
      r.compoundRate =
        jsPow (JSNum.div r.totalReturn (parseFloat "900"))
          (JSNum.div (JSNum.fin 1) r.yearsRemaining) :=
  c2_result_formulas _ 2025 2030
    (by rw [parseFloat_lit_1000]; rfl)
    (by rw [parseFloat_lit_900]; rfl)
    (by rw [parseFloat_lit_2_5]; rfl)
    parseInt_lit_2030 (by norm_num)

/-- C3 (confirmed): whenever the expiration year parses to a value at
most the current calendar year, the result is absent, whatever the other
three fields hold. -/
theorem c3_expired_always_absent (b : BondData) (y : ℤ) (e : ℚ)
    (he : parseInt b.expirationYear = JSNum.fin e) (hle : e ≤ (y : ℚ)) :
    calculateCompoundRate b y = none :=
  calculate_none_of_expired b y e he hle

/-- C3 witness: expiration year 2020 seen from 2025 gives no result. -/
theorem c3_witness :
    calculateCompoundRate
      { nominalValue := "1000", currentValue := "900",
        expirationYear := "2020", yearlyInterestRate := "2.5" } 2025 = none :=
  c3_expired_always_absent _ 2025 2020 parseInt_lit_2020 (by norm_num)

/-- C4 counterexample: `"1000x"` contains non-numeric text, yet
`parseFloat` truncates it to `1000` and the calculation still produces a
result, so the claim as stated is false. -/
theorem c4_counterexample_trailing_text :
    parseFloat "1000x" = JSNum.fin 1000 ∧
      (calculateCompoundRate
        { nominalValue := "1000x", currentValue := "900",
          expirationYear := "2030", yearlyInterestRate := "2.5" }
        2025).isSome = true := by
  constructor
  · exact parseFloat_lit_1000x
  · rw [calculate_isSome_iff]
    refine ⟨?_, ?_, ?_, 2030, ?_, by norm_num⟩
    · rw [parseFloat_lit_1000x]; rfl
    · rw [parseFloat_lit_900]; rfl
    · rw [parseFloat_lit_2_5]; rfl
    · exact parseInt_lit_2030

/-- C4 (amended): whenever any one of the four fields fails to parse at
all — its parse is NaN, which is what happens for the empty string and
for text with no leading numeric part — the result is absent.  (The
original claim's "contains non-numeric text" is too strong: text after a
valid numeric head is ignored, see the counterexample.) -/
theorem c4_unparseable_absent :
    (∀ (b : BondData) (y : ℤ),
      ((parseFloat b.nominalValue).isNaN = true ∨
        (parseFloat b.currentValue).isNaN = true ∨
        (parseInt b.expirationYear).isNaN = true ∨
        (parseFloat b.yearlyInterestRate).isNaN = true) →
      calculateCompoundRate b y = none) ∧
    parseFloat "" = JSNum.nan ∧ parseInt "" = JSNum.nan := by
  refine ⟨fun b y h => calculate_none_of_nan b y h, parseFloat_lit_empty, ?_⟩
  simp +decide [parseInt, parseIntAfterSign, parseIntDigits, isJsSpace,
    List.takeWhile, List.dropWhile]

/-- C4 witness: an empty nominal value gives no result. -/
theorem c4_witness :
    calculateCompoundRate
      { nominalValue := "", currentValue := "900",
        expirationYear := "2030", yearlyInterestRate := "2.5" } 2025 = none :=
  c4_unparseable_absent.1 _ 2025 (Or.inl (by rw [parseFloat_lit_empty]; rfl))

/-- C5 (confirmed): a zero or negative parsed current value does not
make the calculator take the absent branch: a result is still produced,
its compound rate is the unguarded `(totalReturn / currentValue) ^
(1 / yearsRemaining)`, and when the current value is zero and the total
return is positive that compound rate is `+Infinity`. -/
theorem c5_nonpositive_current_passes_through (b : BondData) (y : ℤ) (c e : ℚ)
    (hn : (parseFloat b.nominalValue).isNaN = false)
    (hc : parseFloat b.currentValue = JSNum.fin c)
    (hr : (parseFloat b.yearlyInterestRate).isNaN = false)
    (he : parseInt b.expirationYear = JSNum.fin e)
    (hy : (y : ℚ) < e) (hcnp : c ≤ 0) :
    ∃ r, calculateCompoundRate b y = some r ∧
      r.compoundRate =
        jsPow (JSNum.div r.totalReturn (JSNum.fin c))
          (JSNum.div (JSNum.fin 1) (JSNum.fin (e - y))) ∧
      (c = 0 → ∀ T : ℚ, r.totalReturn = JSNum.fin T → 0 < T →
        r.compoundRate = RNum.inf true) := by
  have hc' : (parseFloat b.currentValue).isNaN = false := by rw [hc]; rfl
  refine ⟨_, calculate_eq_some b y e hn hc' hr he hy, by rw [hc], ?_⟩
  intro hc0 T hT hTpos
  have hk : (0 : ℚ) < e - y := by linarith
  have hT' : JSNum.add
      (JSNum.mul
        (JSNum.mul (parseFloat b.nominalValue)
          (JSNum.div (parseFloat b.yearlyInterestRate) (JSNum.fin 100)))
        (JSNum.fin (e - y)))
      (parseFloat b.nominalValue) = JSNum.fin T := hT
  have hdivT : JSNum.div
      (JSNum.add
        (JSNum.mul
          (JSNum.mul (parseFloat b.nominalValue)
            (JSNum.div (parseFloat b.yearlyInterestRate) (JSNum.fin 100)))
          (JSNum.fin (e - y)))
        (parseFloat b.nominalValue)) (parseFloat b.currentValue) = JSNum.inf true := by
    rw [hT', hc, hc0]
    simp [JSNum.div, hTpos, hTpos.ne']
  have hdiv1 : JSNum.div (JSNum.fin 1) (JSNum.fin (e - y)) = JSNum.fin (1 / (e - y)) := by
    simp [JSNum.div, hk.ne']
  have h1k : (0 : ℚ) < 1 / (e - y) := by positivity
  show jsPow _ _ = RNum.inf true
  rw [hdivT, hdiv1]
  show (if (1 : ℚ) / (e - ↑y) = 0 then RNum.fin 1
    else if 0 < (1 : ℚ) / (e - ↑y) then RNum.inf true else RNum.fin 0) = RNum.inf true
  rw [if_neg h1k.ne', if_pos h1k]

/-- C5 witness: current value `"0"` still produces a result, whose
compound rate is the unguarded formula and is `+Infinity` once the total
return is positive. -/
theorem c5_witness :
    ∃ r, calculateCompoundRate
        { nominalValue := "1000", currentValue := "0",
          expirationYear := "2030", yearlyInterestRate := "2.5" } 2025 = some r ∧
      r.compoundRate =
        jsPow (JSNum.div r.totalReturn (JSNum.fin 0))
          (JSNum.div (JSNum.fin 1) (JSNum.fin (2030 - (2025 : ℤ)))) ∧
      ((0 : ℚ) = 0 → ∀ T : ℚ, r.totalReturn = JSNum.fin T → 0 < T →
        r.compoundRate = RNum.inf true) :=
  c5_nonpositive_current_passes_through _ 2025 0 2030
    (by rw [parseFloat_lit_1000]; rfl)
    parseFloat_lit_0
    (by rw [parseFloat_lit_2_5]; rfl)
    parseInt_lit_2030 (by norm_num) le_rfl

/-- C6 (confirmed): the calculation is a deterministic pure function of
the four text inputs plus the ambient current year — two runs with
identical field values and the same year produce identical results. -/
theorem c6_deterministic (b1 b2 : BondData) (y1 y2 : ℤ)
    (h1 : b1.nominalValue = b2.nominalValue)
    (h2 : b1.currentValue = b2.currentValue)
    (h3 : b1.expirationYear = b2.expirationYear)
    (h4 : b1.yearlyInterestRate = b2.yearlyInterestRate)
    (hy : y1 = y2) :
    calculateCompoundRate b1 y1 = calculateCompoundRate b2 y2 := by
  have hb : b1 = b2 := by
    cases b1
    cases b2
    simp_all
  rw [hb, hy]

/-- C6 witness: two identical concrete runs coincide. -/
theorem c6_witness :
    calculateCompoundRate
        { nominalValue := "1000", currentValue := "900",
          expirationYear := "2030", yearlyInterestRate := "2.5" } 2025 =
      calculateCompoundRate
        { nominalValue := "1000", currentValue := "900",
          expirationYear := "2030", yearlyInterestRate := "2.5" } 2025 :=
  c6_deterministic _ _ 2025 2025 rfl rfl rfl rfl rfl

/-- C7 (confirmed): for every input that produces a result, the
displayed per-year interest `totalInterestPayments / yearsRemaining`
(a fresh division at render time) equals
`annualInterest = nominalValue * (yearlyInterestRate / 100)` exactly. -/
theorem c7_per_year_interest_matches (b : BondData) (y : ℤ) :
    Option.map displayedPerYearInterest (calculateCompoundRate b y) =
      Option.map
        (fun _ =>
          JSNum.mul (parseFloat b.nominalValue)
            (JSNum.div (parseFloat b.yearlyInterestRate) (JSNum.fin 100)))
        (calculateCompoundRate b y) := by
  cases hcase : calculateCompoundRate b y with
  | none => rfl
  | some r =>
      have hs : (calculateCompoundRate b y).isSome = true := by rw [hcase]; rfl
      obtain ⟨hn, hc, hr, e, he, hy⟩ := (calculate_isSome_iff b y).mp hs
      rw [calculate_eq_some b y e hn hc hr he hy] at hcase
      injection hcase with hrec
      subst hrec
      simp only [Option.map_some']
      unfold displayedPerYearInterest
      rw [JSNum.div_mul_fin_cancel _ _ (show (0 : ℚ) < e - y by linarith)]

/-- C8 (confirmed): `handleInputChange` updates exactly the named field
to the new value; the other three fields keep their previous strings. -/
theorem c8_update_frame (f : BondField) (v : String) (b : BondData) :
    (handleInputChange f v b).get f = v ∧
    ∀ g : BondField, g ≠ f → (handleInputChange f v b).get g = b.get g := by
  cases f <;>
    exact ⟨rfl, by intro g hg; cases g <;> first | rfl | exact absurd rfl hg⟩

/-- C8 witness: updating the nominal value changes it and leaves the
current value untouched. -/
theorem c8_witness :
    (handleInputChange BondField.nominalValue "1200"
        { nominalValue := "1000", currentValue := "900",
          expirationYear := "2030", yearlyInterestRate := "2.5" }).get
        BondField.nominalValue = "1200" ∧
    (handleInputChange BondField.nominalValue "1200"
        { nominalValue := "1000", currentValue := "900",
          expirationYear := "2030", yearlyInterestRate := "2.5" }).get
        BondField.currentValue = "900" :=
  ⟨(c8_update_frame BondField.nominalValue "1200" _).1,
    (c8_update_frame BondField.nominalValue "1200" _).2 BondField.currentValue
      (by decide)⟩

/-- C9 (confirmed): an expiration-year text made of a digit run followed
by extra characters (that neither extend the run nor form a `0x` marker)
is parsed by `parseInt` as the truncated integer value of that run
rather than rejected, and the calculation proceeds exactly as if only
the digit run had been typed.  (The three float fields go through
`parseFloat` instead, as `calculateCompoundRate` shows.) -/
theorem c9_expiration_truncated (ds t : List Char) (hne : ds ≠ [])
    (hdig : ∀ c ∈ ds, c.isDigit = true)
    (ht : ∀ c, t.head? = some c → (c.isDigit = false ∧ c ≠ 'x' ∧ c ≠ 'X')) :
    parseInt (String.mk (ds ++ t)) = JSNum.fin (digitsVal ds) ∧
    ∀ (b : BondData) (y : ℤ), b.expirationYear = String.mk (ds ++ t) →
      calculateCompoundRate b y =
        calculateCompoundRate { b with expirationYear := String.mk ds } y := by
  have h1 := parseInt_digits_append ds t hne hdig ht
  have h2 := parseInt_digits_append ds [] hne hdig (by intro c hc; cases hc)
  rw [List.append_nil] at h2
  refine ⟨h1, ?_⟩
  rintro ⟨bn, bc, be, br⟩ y hb
  have hb' : be = String.mk (ds ++ t) := hb
  subst hb'
  simp only [calculateCompoundRate, h1, h2]

/-- C9 witness: `"2030.9"` truncates to the year 2030 and yields the
same calculation as `"2030"`. -/
theorem c9_witness :
    parseInt (String.mk ['2', '0', '3', '0', '.', '9']) = JSNum.fin 2030 ∧
    calculateCompoundRate
        { nominalValue := "1000", currentValue := "900",
          expirationYear := String.mk ['2', '0', '3', '0', '.', '9'],
          yearlyInterestRate := "2.5" } 2025 =
      calculateCompoundRate
        { nominalValue := "1000", currentValue := "900",
          expirationYear := String.mk ['2', '0', '3', '0'],
          yearlyInterestRate := "2.5" } 2025 := by
  have h := c9_expiration_truncated ['2', '0', '3', '0'] ['.', '9'] (by decide)
    (by decide)
    (by
      intro c hc
      injection hc with hc'
      subst hc'
      exact ⟨by decide, by decide, by decide⟩)
  refine ⟨h.1.trans ?_, h.2 _ 2025 rfl⟩
  simp +decide [digitsVal, digitVal]
  norm_num

/-- C10 (confirmed): no sign validation is applied — any finite parsed
values with a future year produce a result, and the total interest
payments are exactly `nominalValue * (rate / 100) * yearsRemaining`,
negative when the coupon rate is negative. -/
theorem c10_no_sign_validation (b : BondData) (y : ℤ) (n c e ir : ℚ)
    (hn : parseFloat b.nominalValue = JSNum.fin n)
    (hc : parseFloat b.currentValue = JSNum.fin c)
    (he : parseInt b.expirationYear = JSNum.fin e)
    (hr : parseFloat b.yearlyInterestRate = JSNum.fin ir)
    (hy : (y : ℚ) < e) :
    ∃ r, calculateCompoundRate b y = some r ∧
      r.totalInterestPayments = JSNum.fin (n * (ir / 100) * (e - y)) := by
  refine ⟨_, calculate_eq_some b y e (by rw [hn]; rfl) (by rw [hc]; rfl)
    (by rw [hr]; rfl) he hy, ?_⟩
  show JSNum.mul
      (JSNum.mul (parseFloat b.nominalValue)
        (JSNum.div (parseFloat b.yearlyInterestRate) (JSNum.fin 100)))
      (JSNum.fin (e - ↑y)) = JSNum.fin (n * (ir / 100) * (e - ↑y))
  rw [hn, hr]
  simp [JSNum.mul, JSNum.div, show (100 : ℚ) ≠ 0 by norm_num]

/-- C10 witness: a negative coupon rate of `-2.5` is accepted and yields
negative total interest payments. -/
theorem c10_witness :
    (∃ r, calculateCompoundRate
        { nominalValue := "1000", currentValue := "900",
          expirationYear := "2030", yearlyInterestRate := "-2.5" } 2025 = some r ∧
      r.totalInterestPayments =
        JSNum.fin (1000 * (-(5 / 2) / 100) * (2030 - (2025 : ℤ)))) ∧
    (1000 * (-(5 / 2) / 100) * (2030 - ((2025 : ℤ) : ℚ))) < 0 :=
  ⟨c10_no_sign_validation _ 2025 1000 900 2030 (-(5 / 2))
      parseFloat_lit_1000 parseFloat_lit_900 parseInt_lit_2030
      parseFloat_lit_neg2_5 (by norm_num),
    by norm_num⟩

end BondYield
